import Mathlib

/-!
Verification development for the Vier browser-extension synchronization engine.

The embedding below is a shallow model of the three surfaces of the extension:

* `Vier.Content`    — the Page Agent (`src/extension/content.js`): playback
  ticks, active-segment computation, quiz-overlay auto-open logic and the
  trigger-memory set `openedSegmentIds`.
* `Vier.Background` — the Connection Coordinator
  (`src/extension/background.js`): the authorized fetch wrapper `apiFetch`
  with single token refresh, the per-task segment cache, the push-event
  handler `handleWsEvent`, and the WebSocket lifecycle
  (`openWebSocket` / `ws.onclose` / `scheduleReconnect`).
* `Vier.Panel`      — the Panel UI (`src/extension/sidepanel.js`): status
  badge / stage label updates and the status-poll interval timer.

JavaScript numbers that the modelled logic compares and adds (playback times,
segment boundaries) are embedded as `Int`; JS string-truthiness (`null`,
`undefined` and `""` are falsy) is made explicit via `jsTruthyStr`.  DOM
mutations and `console` logging are not part of the modelled state; ghost
fields (`autoOpenLog`, `nextId`) record the externally observable events the
claims quantify over (overlay auto-opens, underlying sockets created).
-/

namespace Vier

/-- JS truthiness of a nullable string: `null`/`undefined` (`none`) and the
empty string are falsy. -/
def jsTruthyStr : Option String → Bool
  | none => false
  | some s => s ≠ ""

/-- JS `a || b` on nullable strings (fallback when `a` is falsy). -/
def jsOrOpt (a b : Option String) : Option String :=
  if jsTruthyStr a then a else b

/-- JS `a || b` on the numeric segment-id fields, where `0` is falsy
(`segment.id || segment.segment_id` in `content.js`). -/
def jsOrNat (a b : Nat) : Nat :=
  if a ≠ 0 then a else b

/-- A segment as delivered by the backend.  Only the fields the modelled
logic reads are carried; `topic_title`, `short_summary`, `keywords` and
`quizzes` feed rendering only and never the state the claims are about. -/
structure Segment where
  id : Nat
  segment_id : Nat
  start_time : Int
  end_time : Int
deriving DecidableEq, Repr

namespace Content

/-- `SHOW_EARLY_SECONDS` in `content.js`. -/
def SHOW_EARLY_SECONDS : Int := 3

/-- `HIDE_LATE_SECONDS` in `content.js`. -/
def HIDE_LATE_SECONDS : Int := 3

/-- `segment.id || segment.segment_id`, the id used both by
`maybeAutoOpenOverlay` and by `openOverlay`; `0` plays the role of a falsy
id. -/
def segIdOf (s : Segment) : Nat := jsOrNat s.id s.segment_id

/-- `findSegmentForTime` (`content.js:204`): the first segment whose
`[start_time, end_time]` interval contains `time`; `none` when the segment
list is empty or no interval matches. -/
def findSegmentForTime (segments : List Segment) (time : Int) : Option Segment :=
  segments.find? (fun seg => time ≥ seg.start_time && time ≤ seg.end_time)

/-- The Page Agent state mutated by the overlay logic.  `overlayLoaded`
models `overlayContainer` being non-null, `openedSegmentIds` is the
trigger-memory `Set`, and `autoOpenLog` is a ghost log of the auto-path
overlay opens `(tick time, segment id)`, appended exactly when the overlay
is actually shown by the auto-open path. -/
structure PageState where
  overlayLoaded : Bool
  overlayVisible : Bool
  openedSegmentIds : List Nat
  activeSegment : Option Segment
  videoPaused : Bool
  autoOpenLog : List (Int × Nat)
deriving DecidableEq, Repr

/-- Membership-preserving insertion modelling `Set.prototype.add`. -/
def insertId (i : Nat) (l : List Nat) : List Nat :=
  if i ∈ l then l else i :: l

/-- `openOverlay` (`content.js:396`): returns unchanged when the overlay is
not loaded, there is no active segment, or the overlay is already visible;
otherwise shows the overlay, pauses the video and synchronously adds the
active segment's id to `openedSegmentIds` before the asynchronous review
fetch.  `autoTime = some t` marks the auto-path call made by
`maybeAutoOpenOverlay` at tick time `t` (ghost-logged); `none` is a manual
open (button / keyboard), which per the source also adds the id but is not
an auto-open. -/
def openOverlay (st : PageState) (autoTime : Option Int) : PageState :=
  if st.overlayLoaded = false then st
  else
    match st.activeSegment with
    | none => st
    | some seg =>
      if st.overlayVisible then st
      else
        { st with
          overlayVisible := true
          videoPaused := true
          openedSegmentIds :=
            if segIdOf seg ≠ 0 then insertId (segIdOf seg) st.openedSegmentIds
            else st.openedSegmentIds
          autoOpenLog :=
            match autoTime with
            | some t => st.autoOpenLog ++ [(t, segIdOf seg)]
            | none => st.autoOpenLog }

/-- `closeOverlay` (`content.js:420`): hides the overlay and resumes
playback; a no-op when the overlay container is not loaded. -/
def closeOverlay (st : PageState) : PageState :=
  if st.overlayLoaded = false then st
  else { st with overlayVisible := false, videoPaused := false }

/-- `maybeAutoOpenOverlay` (`content.js:282`): given the current time and the
(already recomputed) active segment, opens the overlay iff no overlay is
visible, the segment id is truthy and not yet in trigger memory, and the
time lies in the auto-open window
`[max(start_time, end_time - SHOW_EARLY_SECONDS), end_time + HIDE_LATE_SECONDS]`. -/
def maybeAutoOpenOverlay (st : PageState) (currentTime : Int)
    (segment : Option Segment) : PageState :=
  match segment with
  | none => st
  | some seg =>
    if st.overlayVisible then st
    else if segIdOf seg = 0 then st
    else if segIdOf seg ∈ st.openedSegmentIds then st
    else
      let windowStart := max seg.start_time (seg.end_time - SHOW_EARLY_SECONDS)
      let windowEnd := seg.end_time + HIDE_LATE_SECONDS
      if windowStart ≤ currentTime ∧ currentTime ≤ windowEnd then
        openOverlay st (some currentTime)
      else st

/-- `onTimeUpdate` (`content.js:192`) after the throttle gate: recomputes
`activeSegment` via `findSegmentForTime`, then runs the auto-open check.
(The quiz-button position/visibility updates only touch DOM styles and are
outside the modelled state.)  Each modelled tick is one handler execution
that passed the `TIMEUPDATE_THROTTLE_MS` throttle. -/
def onTimeUpdate (st : PageState) (segments : List Segment)
    (currentTime : Int) : PageState :=
  let active := findSegmentForTime segments currentTime
  maybeAutoOpenOverlay { st with activeSegment := active } currentTime active

/-- External events of one Page Agent lifetime: a throttled time-update tick
(with the segment list current at that tick — it may grow between ticks via
`segment_ready` pushes), a manual overlay open, and an overlay close. -/
inductive PageEvent
  | tick (segments : List Segment) (t : Int)
  | manualOpen
  | close
deriving DecidableEq, Repr

/-- One Page Agent step. -/
def pageStep (st : PageState) (e : PageEvent) : PageState :=
  match e with
  | .tick segs t => onTimeUpdate st segs t
  | .manualOpen => openOverlay st none
  | .close => closeOverlay st

/-- A run of the Page Agent over a list of events. -/
def pageRun (st : PageState) (evs : List PageEvent) : PageState :=
  evs.foldl pageStep st

/-- The Page Agent state right after `init` finished (overlay container
loaded, nothing visible, empty trigger memory). -/
def pageInit : PageState :=
  { overlayLoaded := true
    overlayVisible := false
    openedSegmentIds := []
    activeSegment := none
    videoPaused := false
    autoOpenLog := [] }

/-- Number of auto-path overlay opens recorded for segment id `S`. -/
def countAuto (st : PageState) (S : Nat) : Nat :=
  (st.autoOpenLog.filter (fun p => p.2 = S)).length

end Content

end Vier

namespace Vier.Content

lemma mem_insertId_self (i : Nat) (l : List Nat) : i ∈ insertId i l := by
  unfold insertId
  split
  · assumption
  · exact List.mem_cons_self i l

lemma mem_insertId_of_mem (i x : Nat) (l : List Nat) (h : x ∈ l) :
    x ∈ insertId i l := by
  unfold insertId
  split
  · exact h
  · exact List.mem_cons_of_mem i h

/-- `maybeAutoOpenOverlay` either leaves the state unchanged or calls
`openOverlay` on the auto path with all of its guards established: the
overlay was not visible and the segment's id is truthy and not yet in the
trigger-memory set. -/
lemma maybeAutoOpenOverlay_cases (st : PageState) (c : Int)
    (sg : Option Segment) :
    maybeAutoOpenOverlay st c sg = st ∨
    ∃ seg, sg = some seg ∧ st.overlayVisible = false ∧ segIdOf seg ≠ 0 ∧
      segIdOf seg ∉ st.openedSegmentIds ∧
      maybeAutoOpenOverlay st c sg = openOverlay st (some c) := by
  unfold maybeAutoOpenOverlay
  match sg with
  | none => exact Or.inl rfl
  | some seg =>
    by_cases hv : st.overlayVisible
    · simp [hv]
    · simp only [hv, if_false, Bool.false_eq_true]
      by_cases h0 : segIdOf seg = 0
      · simp [h0]
      · simp only [h0, if_false]
        by_cases hmem : segIdOf seg ∈ st.openedSegmentIds
        · simp [hmem]
        · simp only [hmem, if_false]
          split
          · exact Or.inr ⟨seg, rfl, by simp [hv], h0, hmem, rfl⟩
          · exact Or.inl rfl

lemma closeOverlay_log (st : PageState) :
    (closeOverlay st).autoOpenLog = st.autoOpenLog := by
  unfold closeOverlay
  split <;> rfl

lemma closeOverlay_ids (st : PageState) :
    (closeOverlay st).openedSegmentIds = st.openedSegmentIds := by
  unfold closeOverlay
  split <;> rfl

lemma openOverlay_none_log (st : PageState) :
    (openOverlay st none).autoOpenLog = st.autoOpenLog := by
  unfold openOverlay
  split
  · rfl
  · split
    · rfl
    · split <;> rfl

lemma openOverlay_ids_mono (st : PageState) (a : Option Int) (x : Nat)
    (h : x ∈ st.openedSegmentIds) : x ∈ (openOverlay st a).openedSegmentIds := by
  unfold openOverlay
  split
  · exact h
  · split
    · exact h
    · split
      · exact h
      · show x ∈ (if _ ≠ 0 then insertId _ st.openedSegmentIds
          else st.openedSegmentIds)
        split
        · exact mem_insertId_of_mem _ _ _ h
        · exact h

lemma openOverlay_notLoaded (st : PageState) (a : Option Int)
    (h : st.overlayLoaded = false) : openOverlay st a = st := by
  unfold openOverlay
  simp [h]

/-- When all of its guards hold, `openOverlay` produces exactly the record
update performed by `content.js:396-418`. -/
lemma openOverlay_fire (st : PageState) (a : Option Int) (seg : Segment)
    (hl : st.overlayLoaded = true) (hseg : st.activeSegment = some seg)
    (hv : st.overlayVisible = false) :
    openOverlay st a =
      { st with
        overlayVisible := true
        videoPaused := true
        openedSegmentIds :=
          if segIdOf seg ≠ 0 then insertId (segIdOf seg) st.openedSegmentIds
          else st.openedSegmentIds
        autoOpenLog :=
          match a with
          | some t => st.autoOpenLog ++ [(t, segIdOf seg)]
          | none => st.autoOpenLog } := by
  unfold openOverlay
  rw [hseg]
  simp [hl, hv]

/-- Each Page Agent step either leaves the auto-open log unchanged, or
appends exactly one entry whose segment id was not yet in trigger memory
and is in trigger memory afterwards; in both cases trigger memory only
grows. -/
lemma pageStep_cases (st : PageState) (e : PageEvent) :
    ((pageStep st e).autoOpenLog = st.autoOpenLog ∧
      ∀ x, x ∈ st.openedSegmentIds → x ∈ (pageStep st e).openedSegmentIds) ∨
    (∃ t i, i ∉ st.openedSegmentIds ∧
      (pageStep st e).autoOpenLog = st.autoOpenLog ++ [(t, i)] ∧
      i ∈ (pageStep st e).openedSegmentIds ∧
      ∀ x, x ∈ st.openedSegmentIds → x ∈ (pageStep st e).openedSegmentIds) := by
  cases e with
  | close =>
    left
    refine ⟨closeOverlay_log st, fun x hx => ?_⟩
    show x ∈ (closeOverlay st).openedSegmentIds
    rw [closeOverlay_ids]
    exact hx
  | manualOpen =>
    left
    exact ⟨openOverlay_none_log st, fun x hx => openOverlay_ids_mono st none x hx⟩
  | tick segs t =>
    have hps : pageStep st (.tick segs t) =
        maybeAutoOpenOverlay { st with activeSegment := findSegmentForTime segs t }
          t (findSegmentForTime segs t) := rfl
    rw [hps]
    rcases maybeAutoOpenOverlay_cases { st with activeSegment := findSegmentForTime segs t }
        t (findSegmentForTime segs t) with h | h
    · left
      rw [h]
      exact ⟨rfl, fun x hx => hx⟩
    · rcases h with ⟨seg, hseg, hv, h0, hmem, heq⟩
      rw [heq]
      by_cases hl : st.overlayLoaded = false
      · left
        rw [openOverlay_notLoaded { st with activeSegment := findSegmentForTime segs t }
          (some t) hl]
        exact ⟨rfl, fun x hx => hx⟩
      · rw [openOverlay_fire { st with activeSegment := findSegmentForTime segs t }
          (some t) seg (by simpa using hl) hseg hv]
        right
        refine ⟨t, segIdOf seg, hmem, rfl, ?_, ?_⟩
        · show segIdOf seg ∈ (if segIdOf seg ≠ 0 then
            insertId (segIdOf seg) st.openedSegmentIds else st.openedSegmentIds)
          rw [if_pos h0]
          exact mem_insertId_self _ _
        · intro x hx
          show x ∈ (if segIdOf seg ≠ 0 then
            insertId (segIdOf seg) st.openedSegmentIds else st.openedSegmentIds)
          rw [if_pos h0]
          exact mem_insertId_of_mem _ _ _ hx

/-- Count of auto-open log entries for segment id `S` in a raw log. -/
def countLog (L : List (Int × Nat)) (S : Nat) : Nat :=
  (L.filter (fun p => p.2 = S)).length

lemma countAuto_eq_countLog (st : PageState) (S : Nat) :
    countAuto st S = countLog st.autoOpenLog S := rfl

lemma countLog_append_single (L : List (Int × Nat)) (t : Int) (i S : Nat) :
    countLog (L ++ [(t, i)]) S =
      countLog L S + (if i = S then 1 else 0) := by
  unfold countLog
  rw [List.filter_append, List.length_append]
  by_cases h : i = S <;> simp [h]

/-- The race-freedom invariant of the trigger memory: every segment has been
auto-opened at most once, and any auto-opened segment id is present in
`openedSegmentIds`. -/
def AutoInv (st : PageState) : Prop :=
  ∀ S, countAuto st S ≤ 1 ∧ (1 ≤ countAuto st S → S ∈ st.openedSegmentIds)

lemma pageStep_preserves_AutoInv (st : PageState) (e : PageEvent)
    (h : AutoInv st) : AutoInv (pageStep st e) := by
  intro S
  rcases pageStep_cases st e with ⟨hlog, hmono⟩ | ⟨t, i, hnotin, hlog, hin, hmono⟩
  · rw [countAuto_eq_countLog, hlog, ← countAuto_eq_countLog]
    exact ⟨(h S).1, fun h1 => hmono S ((h S).2 h1)⟩
  · rw [countAuto_eq_countLog, hlog, countLog_append_single,
      ← countAuto_eq_countLog]
    by_cases hiS : i = S
    · have hzero : countAuto st S = 0 := by
        by_contra hne
        have h1 : 1 ≤ countAuto st S := Nat.one_le_iff_ne_zero.mpr hne
        exact hnotin (hiS ▸ (h S).2 h1)
      rw [hzero, hiS]
      simp only [if_pos rfl]
      exact ⟨le_refl 1, fun _ => hiS ▸ hin⟩
    · simp only [if_neg hiS, Nat.add_zero]
      exact ⟨(h S).1, fun h1 => hmono S ((h S).2 h1)⟩

lemma pageRun_preserves_AutoInv (st : PageState) (evs : List PageEvent)
    (h : AutoInv st) : AutoInv (pageRun st evs) := by
  induction evs generalizing st with
  | nil => exact h
  | cons e rest ih =>
    exact ih (pageStep st e) (pageStep_preserves_AutoInv st e h)

lemma autoInv_pageInit : AutoInv pageInit := by
  intro S
  constructor
  · simp [countAuto, pageInit]
  · intro h1
    simp [countAuto, pageInit, countLog] at h1

end Vier.Content

open Vier Vier.Content in
/-- Claim C1: for every segment id `S` and every sequence of Page Agent
events (throttled time-update ticks, manual opens, closes) within one Page
Agent lifetime, the auto-open path opens the overlay for `S` at most once,
and any segment id that has been auto-opened is in the trigger-memory set
`openedSegmentIds` (it is inserted synchronously by `openOverlay` at the
moment the overlay is shown, before the asynchronous review fetch), so no
two ticks can both auto-open `S`. -/
theorem auto_open_at_most_once (evs : List PageEvent) (S : Nat) :
    countAuto (pageRun pageInit evs) S ≤ 1 ∧
      (1 ≤ countAuto (pageRun pageInit evs) S →
        S ∈ (pageRun pageInit evs).openedSegmentIds) :=
  pageRun_preserves_AutoInv pageInit evs autoInv_pageInit S

namespace Vier.Content

/-- The segment list of the C8 scenario: task `T1` with segments
`[{id:1, start:0, end:30}, {id:2, start:30, end:90}]`. -/
def c8Segments : List Segment :=
  [{ id := 1, segment_id := 1, start_time := 0, end_time := 30 },
   { id := 2, segment_id := 2, start_time := 30, end_time := 90 }]

/-- The C8 scenario tick sequence: playback ticks at t = 26, 27, ..., 33. -/
def c8Events : List PageEvent :=
  ([26, 27, 28, 29, 30, 31, 32, 33] : List Int).map (fun t => .tick c8Segments t)

end Vier.Content

open Vier Vier.Content in
/-- Claim C8: with segments `[{id:1, start:0, end:30}, {id:2, start:30,
end:90}]`, `SHOW_EARLY_SECONDS = 3`, `HIDE_LATE_SECONDS = 3`, and playback
ticks at t = 26, 27, ..., 33, the overlay auto-opens exactly once, at the
first tick whose time lies in the auto-open window `[27, 33]` of segment 1
(namely t = 27), and only for segment 1. -/
theorem c8_scenario_auto_open :
    (pageRun pageInit c8Events).autoOpenLog = [(27, 1)] := by decide

namespace Vier.Background

/-- The JSON payload of one push-channel message, as read by
`handleWsEvent` (`background.js:370`): `payload.event` selects the branch,
`payload.segment` is the segment carried by `segment_ready`. -/
structure WsPayload where
  event : Option String
  segment : Option Segment
  progress : Option Int
  current_stage : Option String
  status : Option String
  message : Option String
deriving DecidableEq, Repr

/-- A message sent via `sendBroadcast` (`background.js:468`): the event
broadcasts are `{channel:"ws", taskId, payload}`, the lifecycle broadcasts
`{channel:"ws", type:"connected"|"disconnected", taskId}` carry no payload. -/
structure BroadcastMsg where
  channel : String
  type : Option String
  taskId : Option String
  payload : Option WsPayload
deriving DecidableEq, Repr

/-- `state.segmentsByTask`: a `Map` from task id to segment array, embedded
as an association list with unique keys (first binding wins, as for a JS
`Map`). -/
abbrev SegCache := List (String × List Segment)

/-- `segmentsByTask.get(taskId) || []` — `undefined` becomes `[]`. -/
def cacheGet : SegCache → String → List Segment
  | [], _ => []
  | kv :: rest, t => if kv.1 = t then kv.2 else cacheGet rest t

/-- `segmentsByTask.set(taskId, v)` — replaces the existing binding or
appends a new one. -/
def cacheSet : SegCache → String → List Segment → SegCache
  | [], t, v => [(t, v)]
  | kv :: rest, t, v => if kv.1 = t then (t, v) :: rest else kv :: cacheSet rest t v

/-- The primitive effects `handleWsEvent` performs, in program order: a
cache mutation, a persist of session state, arming the 5-second
post-completion close timer, and a broadcast to all subscribers. -/
inductive BgAction
  | setCache (taskId : String) (segs : List Segment)
  | persistState
  | scheduleCompletedClose (taskId : String)
  | broadcast (m : BroadcastMsg)
deriving DecidableEq, Repr

/-- The verbatim event broadcast `sendBroadcast({channel:"ws", taskId,
payload})` emitted at the end of `handleWsEvent`. -/
def wsBroadcast (taskId : String) (p : WsPayload) : BroadcastMsg :=
  { channel := "ws", type := none, taskId := some taskId, payload := some p }

/-- `handleWsEvent` (`background.js:370-421`) as the ordered list of effects
it performs on the given cache: `segment_ready` (with a segment) appends the
segment to the task's cached list and persists; `completed` arms the
deferred close; `progress`, `error` and unknown events only log; every path
ends by broadcasting `{channel:"ws", taskId, payload}` verbatim. -/
def handleWsEvent (cache : SegCache) (taskId : String) (payload : WsPayload) :
    List BgAction :=
  (match payload.event with
   | some "segment_ready" =>
     match payload.segment with
     | some seg =>
       [BgAction.setCache taskId (cacheGet cache taskId ++ [seg]),
        BgAction.persistState]
     | none => []
   | some "completed" => [BgAction.scheduleCompletedClose taskId]
   | _ => []) ++
  [BgAction.broadcast (wsBroadcast taskId payload)]

/-- Effect of one primitive action on the segment cache. -/
def applyBgAction (c : SegCache) : BgAction → SegCache
  | BgAction.setCache t v => cacheSet c t v
  | _ => c

/-- Cache resulting from a list of actions. -/
def cacheAfter (c : SegCache) (acts : List BgAction) : SegCache :=
  acts.foldl applyBgAction c

/-- The payload of a `segment_ready` push event carrying segment `seg`. -/
def segReadyPayload (seg : Segment) : WsPayload :=
  { event := some "segment_ready"
    segment := some seg
    progress := none
    current_stage := none
    status := none
    message := none }

/-- Net cache effect of the Coordinator handling one push event. -/
def stepWsEvent (c : SegCache) (taskId : String) (p : WsPayload) : SegCache :=
  cacheAfter c (handleWsEvent c taskId p)

/-- Cache after the Coordinator handles a sequence of `segment_ready`
events for task `t`, in receipt order. -/
def runSegmentReady (c : SegCache) (t : String) (segs : List Segment) : SegCache :=
  segs.foldl (fun acc s => stepWsEvent acc t (segReadyPayload s)) c

lemma cacheGet_cacheSet_self (c : SegCache) (t : String) (v : List Segment) :
    cacheGet (cacheSet c t v) t = v := by
  induction c with
  | nil => simp [cacheSet, cacheGet]
  | cons kv rest ih =>
    by_cases h : kv.1 = t
    · simp [cacheSet, cacheGet, h]
    · simp [cacheSet, cacheGet, h, ih]

lemma handleWsEvent_segReady (c : SegCache) (t : String) (seg : Segment) :
    handleWsEvent c t (segReadyPayload seg) =
      [BgAction.setCache t (cacheGet c t ++ [seg]), BgAction.persistState,
       BgAction.broadcast (wsBroadcast t (segReadyPayload seg))] := rfl

lemma stepWsEvent_segReady (c : SegCache) (t : String) (seg : Segment) :
    stepWsEvent c t (segReadyPayload seg) = cacheSet c t (cacheGet c t ++ [seg]) := by
  rw [stepWsEvent, handleWsEvent_segReady]
  rfl

end Vier.Background

open Vier Vier.Background in
/-- Claim C3: for every sequence of `segment_ready` push events received for
a task, the Coordinator's cached segment list for that task after the
sequence equals the previous list with the received segments appended in
receipt order — hence its length is monotonically non-decreasing and cached
segments are never reordered or removed. -/
theorem segment_cache_append_only (c : SegCache) (t : String)
    (segs : List Segment) :
    cacheGet (runSegmentReady c t segs) t = cacheGet c t ++ segs := by
  induction segs generalizing c with
  | nil => simp [runSegmentReady]
  | cons s rest ih =>
    show cacheGet (runSegmentReady (stepWsEvent c t (segReadyPayload s)) t rest) t = _
    rw [ih, stepWsEvent_segReady, cacheGet_cacheSet_self, List.append_assoc]
    rfl

open Vier Vier.Background in
/-- Claim C6: for a `segment_ready` push event, the Coordinator's effect
list is exactly cache-append, persist, then the verbatim broadcast — the
broadcast is the last action, and the cache visible at the moment the
broadcast is emitted (i.e. after the actions preceding it) already contains
the appended segment, so a consumer querying Coordinator state upon
receiving the broadcast observes the already-updated cache. -/
theorem cache_mutation_before_broadcast (c : SegCache) (t : String)
    (p : WsPayload) (seg : Segment) (he : p.event = some "segment_ready")
    (hs : p.segment = some seg) :
    handleWsEvent c t p =
      [BgAction.setCache t (cacheGet c t ++ [seg]), BgAction.persistState] ++
        [BgAction.broadcast (wsBroadcast t p)] ∧
    cacheGet (cacheAfter c
      [BgAction.setCache t (cacheGet c t ++ [seg]), BgAction.persistState]) t =
      cacheGet c t ++ [seg] := by
  constructor
  · unfold handleWsEvent
    rw [he, hs]
    rfl
  · show cacheGet (cacheSet c t (cacheGet c t ++ [seg])) t = _
    exact cacheGet_cacheSet_self c t _

namespace Vier.Background

/-- A sample segment used by concrete witnesses. -/
def sampleSeg : Segment := { id := 1, segment_id := 1, start_time := 0, end_time := 30 }

end Vier.Background

open Vier Vier.Background in
/-- Witness for C6 at a concrete cache, task and payload. -/
theorem cache_mutation_before_broadcast_witness :
    handleWsEvent [] "T1" (segReadyPayload sampleSeg) =
      [BgAction.setCache "T1" (cacheGet ([] : SegCache) "T1" ++ [sampleSeg]),
        BgAction.persistState] ++
        [BgAction.broadcast (wsBroadcast "T1" (segReadyPayload sampleSeg))] ∧
    cacheGet (cacheAfter ([] : SegCache)
      [BgAction.setCache "T1" (cacheGet ([] : SegCache) "T1" ++ [sampleSeg]),
        BgAction.persistState]) "T1" =
      cacheGet ([] : SegCache) "T1" ++ [sampleSeg] :=
  cache_mutation_before_broadcast [] "T1" _ _ rfl rfl

namespace Vier.Background

/-- A raw frame received on the push channel by `ws.onmessage`
(`background.js:301-320`): either a string that `JSON.parse` rejects, or a
well-formed JSON payload. -/
inductive RawMsg
  | malformed (raw : String)
  | wellFormed (p : WsPayload)
deriving DecidableEq, Repr

/-- `ws.onmessage`: `JSON.parse` failure is caught, logged and the handler
returns — no effect of any kind is produced (in particular nothing closes
the connection; no `BgAction` closes a socket, and even `completed` only
arms a deferred timer).  A well-formed payload is handed to
`handleWsEvent`. -/
def wsOnMessage (cache : SegCache) (taskId : String) : RawMsg → List BgAction
  | RawMsg.malformed _ => []
  | RawMsg.wellFormed p => handleWsEvent cache taskId p

/-- Processing of a sequence of raw frames by the open connection: each
frame's actions are applied to the cache before the next frame is handled,
and all actions are emitted in order. -/
def processMessages (c : SegCache) (t : String) : List RawMsg → SegCache × List BgAction
  | [] => (c, [])
  | m :: rest =>
    let acts := wsOnMessage c t m
    let out := processMessages (cacheAfter c acts) t rest
    (out.1, acts ++ out.2)

end Vier.Background

open Vier Vier.Background in
/-- Claim C9: a malformed (non-JSON-parseable) push message is dropped with
no effect whatsoever — it produces no actions (so it cannot close the
connection) — and the subsequent messages are processed exactly as if the
malformed frame had never arrived. -/
theorem malformed_message_dropped (c : SegCache) (t : String) (raw : String)
    (rest : List RawMsg) :
    wsOnMessage c t (RawMsg.malformed raw) = [] ∧
    processMessages c t (RawMsg.malformed raw :: rest) = processMessages c t rest := by
  constructor
  · rfl
  · show (let acts := wsOnMessage c t (RawMsg.malformed raw);
      let out := processMessages (cacheAfter c acts) t rest;
      (out.1, acts ++ out.2)) = processMessages c t rest
    simp [wsOnMessage, cacheAfter]

namespace Vier.Background

/-- The Session slice of the Coordinator state: `state.accessToken`,
`state.refreshToken`, `state.user` (`background.js:15-30`), each nullable. -/
structure AuthState where
  accessToken : Option String
  refreshToken : Option String
  user : Option String
deriving DecidableEq, Repr

/-- `clearTokens` (`background.js:100-105`). -/
def clearTokens (_st : AuthState) : AuthState :=
  { accessToken := none, refreshToken := none, user := none }

/-- Body of a successful `/api/auth/refresh` response. -/
structure RefreshJson where
  access_token : String
  refresh_token : Option String
deriving DecidableEq, Repr

/-- `refreshTokens` (`background.js:180-200`).  `outcome` is the
environment's answer to the refresh HTTP call: `none` when the fetch throws
or the response is not ok (both land in the catch), `some j` for a 2xx body
`j`.  Returns whether the refresh succeeded together with the new session
state: on success the tokens are rotated (`json.refresh_token ||
state.refresh_token`); on failure `clearTokens` runs; with a falsy stored
refresh token the function returns `false` without touching the state. -/
def refreshTokens (st : AuthState) (outcome : Option RefreshJson) :
    Bool × AuthState :=
  if jsTruthyStr st.refreshToken then
    match outcome with
    | some j =>
      (true, { st with accessToken := some j.access_token,
                       refreshToken := jsOrOpt j.refresh_token st.refreshToken })
    | none => (false, clearTokens st)
  else (false, st)

/-- `Response.ok`: status in the 2xx range. -/
def respOk (s : Nat) : Bool := 200 ≤ s && s < 300

/-- Result of one `apiFetch` call. -/
inductive ApiResult
  | success (status : Nat)
  | httpError (status : Nat)
  | networkError
deriving DecidableEq, Repr

/-- Observable trace of one `apiFetch` call: its result, how many network
fetches of the original request ran, how many token-refresh attempts ran,
and the session state afterwards. -/
structure ApiTrace where
  result : ApiResult
  fetchCount : Nat
  refreshAttempts : Nat
  final : AuthState
deriving DecidableEq, Repr

/-- `apiFetch(path, options, attemptRefresh = false)` — the retried call
(`background.js:108-150` with `attemptRefresh` false): one fetch, no
further refresh regardless of the status.  `resp = none` models the fetch
throwing (network error), `some s` an HTTP response with status `s`. -/
def apiFetchNoRefresh (st : AuthState) (resp : Option Nat) : ApiTrace :=
  match resp with
  | none => { result := ApiResult.networkError, fetchCount := 1,
              refreshAttempts := 0, final := st }
  | some s =>
    if respOk s then
      { result := ApiResult.success s, fetchCount := 1,
        refreshAttempts := 0, final := st }
    else
      { result := ApiResult.httpError s, fetchCount := 1,
        refreshAttempts := 0, final := st }

/-- `apiFetch(path, options)` — the public entry (`background.js:108-150`,
`attemptRefresh = true`).  `resp1` answers the first fetch, `resp2` the
retry (used only if a retry happens), `refreshOutcome` the refresh call.
On a 401 with a truthy stored refresh token it runs `refreshTokens` once;
on refresh success it re-issues the request exactly once with
`attemptRefresh = false`; on refresh failure it falls through and throws
`HTTP 401` (the session having been cleared by `refreshTokens`). -/
def apiFetch (st : AuthState) (resp1 resp2 : Option Nat)
    (refreshOutcome : Option RefreshJson) : ApiTrace :=
  match resp1 with
  | none => { result := ApiResult.networkError, fetchCount := 1,
              refreshAttempts := 0, final := st }
  | some s =>
    if s = 401 ∧ jsTruthyStr st.refreshToken then
      let r := refreshTokens st refreshOutcome
      if r.1 then
        let t := apiFetchNoRefresh r.2 resp2
        { t with fetchCount := t.fetchCount + 1,
                 refreshAttempts := t.refreshAttempts + 1 }
      else
        { result := ApiResult.httpError s, fetchCount := 1,
          refreshAttempts := 1, final := r.2 }
    else if respOk s then
      { result := ApiResult.success s, fetchCount := 1,
        refreshAttempts := 0, final := st }
    else
      { result := ApiResult.httpError s, fetchCount := 1,
        refreshAttempts := 0, final := st }

end Vier.Background

open Vier Vier.Background in
/-- Claim C2: a single `apiFetch` call performs at most one token-refresh
attempt and at most one retry (at most two fetches of the original
request), no matter what statuses the backend returns — in particular for
arbitrarily many consecutive 401s — and if the refresh attempt fails
(401 received, truthy refresh token stored, refresh call unsuccessful) the
stored session tokens are cleared. -/
theorem apiFetch_single_refresh (st : AuthState) (resp1 resp2 : Option Nat)
    (refreshOutcome : Option RefreshJson) :
    (apiFetch st resp1 resp2 refreshOutcome).refreshAttempts ≤ 1 ∧
    (apiFetch st resp1 resp2 refreshOutcome).fetchCount ≤ 2 ∧
    (resp1 = some 401 → jsTruthyStr st.refreshToken = true → refreshOutcome = none →
      (apiFetch st resp1 resp2 refreshOutcome).final =
        { accessToken := none, refreshToken := none, user := none }) := by
  match resp1 with
  | none => exact ⟨by simp [apiFetch], by simp [apiFetch], by intro h; cases h⟩
  | some s =>
    show (apiFetch st (some s) resp2 refreshOutcome).refreshAttempts ≤ 1 ∧ _
    simp only [apiFetch]
    by_cases hc : s = 401 ∧ jsTruthyStr st.refreshToken
    · rw [if_pos hc]
      rcases hro : refreshTokens st refreshOutcome with ⟨b, st2⟩
      cases b with
      | true =>
        refine ⟨?_, ?_, ?_⟩
        · show (apiFetchNoRefresh st2 resp2).refreshAttempts + 1 ≤ 1
          cases resp2 with
          | none => simp [apiFetchNoRefresh]
          | some s2 =>
            by_cases h2 : respOk s2 = true <;> simp [apiFetchNoRefresh, h2]
        · show (apiFetchNoRefresh st2 resp2).fetchCount + 1 ≤ 2
          cases resp2 with
          | none => simp [apiFetchNoRefresh]
          | some s2 =>
            by_cases h2 : respOk s2 = true <;> simp [apiFetchNoRefresh, h2]
        · intro _ htok hout
          exfalso
          rw [refreshTokens.eq_def, if_pos htok, hout] at hro
          cases hro
      | false =>
        refine ⟨by simp, by simp, ?_⟩
        intro _ htok hout
        show st2 = _
        rw [refreshTokens.eq_def, if_pos htok, hout] at hro
        cases hro
        rfl
    · rw [if_neg hc]
      by_cases h2 : respOk s = true
      · rw [if_pos h2]
        refine ⟨by simp, by simp, ?_⟩
        intro h401 htok _
        exact absurd ⟨by injection h401, htok⟩ hc
      · rw [if_neg h2]
        refine ⟨by simp, by simp, ?_⟩
        intro h401 htok _
        exact absurd ⟨by injection h401, htok⟩ hc

open Vier Vier.Background in
/-- Witness for C2: a session holding tokens, two consecutive 401 responses
and a failing refresh — one refresh attempt, one fetch, session cleared. -/
theorem apiFetch_single_refresh_witness :
    (apiFetch { accessToken := some "a", refreshToken := some "r", user := some "u" }
        (some 401) (some 401) none).refreshAttempts ≤ 1 ∧
    (apiFetch { accessToken := some "a", refreshToken := some "r", user := some "u" }
        (some 401) (some 401) none).fetchCount ≤ 2 ∧
    (some 401 = some (401 : Nat) →
      jsTruthyStr (some "r") = true → (none : Option RefreshJson) = none →
      (apiFetch { accessToken := some "a", refreshToken := some "r", user := some "u" }
          (some 401) (some 401) none).final =
        { accessToken := none, refreshToken := none, user := none }) :=
  apiFetch_single_refresh
    { accessToken := some "a", refreshToken := some "r", user := some "u" }
    (some 401) (some 401) none

namespace Vier.Background

/-- `WebSocket.readyState`. -/
inductive ReadyState
  | connecting
  | opened
  | closing
  | closed
deriving DecidableEq, Repr

/-- One underlying WebSocket object; `sock` is a ghost identity numbering
the sockets ever constructed. -/
structure WsConn where
  sock : Nat
  readyState : ReadyState
deriving DecidableEq, Repr

/-- The connection slice of the Coordinator state (`background.js:26-29`):
`state.ws`, `state.wsTaskId`, the ping interval, and the pending reconnect
timer (modelled with the task id its callback closed over; `none` = no
timer).  `nextSock` is a ghost counter of underlying sockets created. -/
structure ConnState where
  ws : Option WsConn
  wsTaskId : Option String
  wsPingTimer : Bool
  wsReconnectTimer : Option String
  nextSock : Nat
deriving DecidableEq, Repr

/-- `closeWebSocket` (`background.js:454-465`): closes any socket, nulls
`ws`/`wsTaskId`, stops the ping and clears the pending reconnect timer. -/
def closeWebSocket (st : ConnState) : ConnState :=
  { st with ws := none, wsTaskId := none, wsPingTimer := false,
            wsReconnectTimer := none }

/-- `openWebSocket(taskId)` (`background.js:276-291`): skipped when
`state.ws` is non-null and `state.wsTaskId === taskId` (note: no
`readyState` check here); otherwise `closeWebSocket()` then a fresh socket
is constructed and bound. -/
def openWebSocket (st : ConnState) (taskId : String) : ConnState :=
  if st.ws.isSome ∧ st.wsTaskId = some taskId then st
  else
    let st1 := closeWebSocket st
    { st1 with ws := some { sock := st.nextSock, readyState := ReadyState.connecting }
               wsTaskId := some taskId
               nextSock := st.nextSock + 1 }

/-- The guard of the `ws:connect` bus handler (`background.js:636-640`):
already connected to this task with an OPEN socket. -/
def wsIsOpenFor (st : ConnState) (taskId : String) : Bool :=
  match st.ws with
  | some c => st.wsTaskId == some taskId && c.readyState == ReadyState.opened
  | none => false

/-- The `ws:connect` bus handler (`background.js:633-646`): replies
`{ok, already_connected:true}` without touching anything when
`wsIsOpenFor`; otherwise calls `openWebSocket`.  The returned `Bool` is the
`already_connected` flag of the reply. -/
def wsConnectHandler (st : ConnState) (taskId : String) : ConnState × Bool :=
  if wsIsOpenFor st taskId then (st, true)
  else (openWebSocket st taskId, false)

/-- `scheduleReconnect(taskId)` (`background.js:423-452`): a no-op when a
reconnect timer is already pending, else arms the 2-second timer whose
callback will probe the task status. -/
def scheduleReconnect (st : ConnState) (taskId : String) : ConnState :=
  if st.wsReconnectTimer.isSome then st
  else { st with wsReconnectTimer := some taskId }

/-- The browser marking the socket closed when its close event fires, plus
`stopWebSocketPing()` run by the handler. -/
def markSocketClosed (st : ConnState) : ConnState :=
  { st with
    ws := st.ws.map (fun c => { c with readyState := ReadyState.closed })
    wsPingTimer := false }

/-- The broadcast `{channel:"ws", type:"disconnected", taskId}` sent by
`ws.onclose`. -/
def disconnectedMsg (taskId : String) : BroadcastMsg :=
  { channel := "ws", type := some "disconnected", taskId := some taskId,
    payload := none }

/-- `ws.onclose` (`background.js:322-334`) for the socket bound to
`taskId`: the socket is now closed; the handler broadcasts
`disconnectedMsg`, stops the ping, and — if `state.wsTaskId` still equals
`taskId` — schedules the reconnect timer (unconditionally on the task's
backend status, which this handler never consults). -/
def wsOnClose (st : ConnState) (taskId : String) : ConnState × BroadcastMsg :=
  if st.wsTaskId = some taskId then
    (scheduleReconnect (markSocketClosed st) taskId, disconnectedMsg taskId)
  else (markSocketClosed st, disconnectedMsg taskId)

/-- The reconnect timer firing (`background.js:425-451`): clears the timer
handle, probes the task status via the pull API (`probe` is the
environment's answer; `none` models the status fetch throwing), and
reconnects only when the probe reports `processing` or `pending` — on
`completed`/`failed` (or any other status) it skips reconnection; on a
probe error it reconnects anyway (the catch branch). -/
def reconnectTimerFire (st : ConnState) (probe : Option String) : ConnState :=
  match st.wsReconnectTimer with
  | none => st
  | some taskId =>
    let st1 := { st with wsReconnectTimer := none }
    match probe with
    | some s =>
      if s = "processing" ∨ s = "pending" then openWebSocket st1 taskId else st1
    | none => openWebSocket st1 taskId

/-- Concrete state of the C5 counterexample: the Coordinator holds an OPEN
socket bound to task `T1` (whose backend status has already reached
`completed`, e.g. during the 5-second post-completion linger), with no
reconnect timer pending. -/
def c5OpenState : ConnState :=
  { ws := some { sock := 0, readyState := ReadyState.opened }
    wsTaskId := some "T1"
    wsPingTimer := true
    wsReconnectTimer := none
    nextSock := 1 }

end Vier.Background

open Vier Vier.Background in
/-- Counterexample to claim C5 as stated: when the socket of `c5OpenState`
closes spontaneously (server-side) while the task's status is `completed`,
`ws.onclose` does schedule a reconnect timer — `scheduleReconnect` runs
whenever `state.wsTaskId` still matches, without consulting the task
status, so "no reconnect timer is scheduled" is false. -/
theorem onclose_completed_schedules_timer :
    ((wsOnClose c5OpenState "T1").1).wsReconnectTimer = some "T1" := rfl

open Vier Vier.Background in
/-- Claim C5 as amended: when the socket closes while the task is
`completed` (or `failed`), the close handler may arm the status-probe
reconnect timer, but no reconnection happens: after the timer fires and the
status probe reports `completed` or `failed`, the timer is cleared, no new
underlying socket has been created at any point, and the socket is in the
closed state — the connection ends closed. -/
theorem onclose_completed_no_reconnect (st : ConnState) (t s : String)
    (hs : s = "completed" ∨ s = "failed") :
    (reconnectTimerFire (wsOnClose st t).1 (some s)).wsReconnectTimer = none ∧
    (reconnectTimerFire (wsOnClose st t).1 (some s)).nextSock = st.nextSock ∧
    (∀ c, (reconnectTimerFire (wsOnClose st t).1 (some s)).ws = some c →
      c.readyState = ReadyState.closed) := by
  have hnotproc : ¬(s = "processing" ∨ s = "pending") := by
    rcases hs with h | h <;> rw [h] <;> decide
  have hscw : ∀ st2 t2, (scheduleReconnect st2 t2).ws = st2.ws := by
    intro st2 t2
    unfold scheduleReconnect
    split <;> rfl
  have hscn : ∀ st2 t2, (scheduleReconnect st2 t2).nextSock = st2.nextSock := by
    intro st2 t2
    unfold scheduleReconnect
    split <;> rfl
  have hwsc : ((wsOnClose st t).1).ws =
      st.ws.map (fun c => { c with readyState := ReadyState.closed }) := by
    unfold wsOnClose
    split
    · rw [hscw]
      rfl
    · rfl
  have hnsc : ((wsOnClose st t).1).nextSock = st.nextSock := by
    unfold wsOnClose
    split
    · rw [hscn]
      rfl
    · rfl
  have hclosedws : ∀ c, ((wsOnClose st t).1).ws = some c →
      c.readyState = ReadyState.closed := by
    intro c hc
    rw [hwsc] at hc
    rcases hx : st.ws with _ | d <;> rw [hx] at hc <;> simp [Option.map] at hc
    rw [← hc]
  cases htimer : ((wsOnClose st t).1).wsReconnectTimer with
  | none =>
    have hfire : reconnectTimerFire (wsOnClose st t).1 (some s) = (wsOnClose st t).1 := by
      unfold reconnectTimerFire
      rw [htimer]
    rw [hfire]
    exact ⟨htimer, hnsc, hclosedws⟩
  | some tid =>
    have hfire : reconnectTimerFire (wsOnClose st t).1 (some s) =
        { (wsOnClose st t).1 with wsReconnectTimer := none } := by
      unfold reconnectTimerFire
      rw [htimer]
      show (if s = "processing" ∨ s = "pending" then _ else _) = _
      rw [if_neg hnotproc]
    rw [hfire]
    exact ⟨rfl, hnsc, hclosedws⟩

open Vier Vier.Background in
/-- Witness for the amended C5 at the concrete pre-close state and probe
status `completed`. -/
theorem onclose_completed_no_reconnect_witness :
    (reconnectTimerFire (wsOnClose c5OpenState "T1").1 (some "completed")).wsReconnectTimer = none ∧
    (reconnectTimerFire (wsOnClose c5OpenState "T1").1 (some "completed")).nextSock = c5OpenState.nextSock ∧
    (∀ c, (reconnectTimerFire (wsOnClose c5OpenState "T1").1 (some "completed")).ws = some c →
      c.readyState = ReadyState.closed) :=
  onclose_completed_no_reconnect c5OpenState "T1" "completed" (Or.inl rfl)

open Vier Vier.Background in
/-- Claim C7: when the Coordinator already holds an OPEN socket bound to
`taskId`, the `ws:connect` handler is a no-op returning
`already_connected`; two `ws:connect` calls in immediate succession both
no-op, leave the state (and in particular the ghost socket counter
`nextSock`) unchanged, so exactly one underlying connection exists. -/
theorem ws_connect_idempotent (st : ConnState) (taskId : String)
    (h : wsIsOpenFor st taskId = true) :
    wsConnectHandler st taskId = (st, true) ∧
    wsConnectHandler (wsConnectHandler st taskId).1 taskId = (st, true) ∧
    ((wsConnectHandler (wsConnectHandler st taskId).1 taskId).1).nextSock =
      st.nextSock := by
  have h1 : wsConnectHandler st taskId = (st, true) := by
    unfold wsConnectHandler
    rw [if_pos h]
  refine ⟨h1, ?_, ?_⟩
  · rw [h1]
    exact h1
  · rw [h1, h1]

namespace Vier.Background

/-- Concrete state for the C7 witness: an OPEN socket bound to task `T7`. -/
def c7OpenState : ConnState :=
  { ws := some { sock := 4, readyState := ReadyState.opened }
    wsTaskId := some "T7"
    wsPingTimer := true
    wsReconnectTimer := none
    nextSock := 5 }

end Vier.Background

open Vier Vier.Background in
/-- Witness for C7: a concrete state with an OPEN socket bound to task
`T7`. -/
theorem ws_connect_idempotent_witness :
    wsConnectHandler c7OpenState "T7" = (c7OpenState, true) ∧
    wsConnectHandler (wsConnectHandler c7OpenState "T7").1 "T7" = (c7OpenState, true) ∧
    ((wsConnectHandler (wsConnectHandler c7OpenState "T7").1 "T7").1).nextSock =
      c7OpenState.nextSock :=
  ws_connect_idempotent c7OpenState "T7" (by decide)

namespace Vier

/-- JS `a || b` where `a` is a nullable string and `b` a string default. -/
def jsOrStr (a : Option String) (b : String) : String :=
  if jsTruthyStr a then a.getD "" else b

end Vier

namespace Vier.Panel

open Vier.Background (WsPayload)

/-- The Panel UI state touched by the status logic (`sidepanel.js`):
the rendered status badge, stage label, progress bar and debug fields,
whether the status-poll interval timer is armed
(`state.statusPollInterval`), the current task, the local segment list and
the activity feed. -/
structure PanelState where
  statusBadge : String
  stageLabel : String
  progress : Int
  debugStatus : String
  debugStage : String
  statusPollActive : Bool
  currentTaskId : Option String
  segments : List Segment
  activity : List String
deriving DecidableEq, Repr

/-- `setProgress` (`sidepanel.js:104`): clamps to `[0, 100]`. -/
def setProgress (st : PanelState) (v : Int) : PanelState :=
  { st with progress := max 0 (min 100 v) }

/-- `renderActivity` (`sidepanel.js:184`): prepends, keeps at most 5. -/
def renderActivity (st : PanelState) (msg : String) : PanelState :=
  { st with activity := (msg :: st.activity).take 5 }

/-- `setDebug(progress, stage, status)` (`sidepanel.js:202-229`): sets the
progress bar when `progress` is a number, the debug status when `status` is
truthy, and the debug stage to `stage || current || "Waiting…"`. -/
def setDebug (st : PanelState) (progress : Option Int) (stage : Option String)
    (status : Option String) : PanelState :=
  let st1 := match progress with
    | some v => setProgress st v
    | none => st
  let st2 := if jsTruthyStr status then { st1 with debugStatus := status.getD "" }
    else st1
  { st2 with debugStage :=
      jsOrStr stage (if st2.debugStage ≠ "" then st2.debugStage else "Waiting…") }

/-- `startStatusPolling` (`sidepanel.js:354`): arms the 5-second status
poll interval unless already armed. -/
def startStatusPolling (st : PanelState) : PanelState :=
  if st.statusPollActive then st else { st with statusPollActive := true }

/-- `stopStatusPolling` (`sidepanel.js:400`): clears the poll interval if
armed. -/
def stopStatusPolling (st : PanelState) : PanelState :=
  if st.statusPollActive then { st with statusPollActive := false } else st

/-- `setStatusProcessing` (`sidepanel.js:331-344`): badge `processing`,
stage label, debug update — and then `startStatusPolling()` (the polling
path is started, not stopped). -/
def setStatusProcessing (st : PanelState) (msg : Option String) : PanelState :=
  let st1 := { st with statusBadge := "processing"
                       stageLabel := jsOrStr msg "Processing…" }
  let st2 := setDebug st1 none (some (jsOrStr msg "Processing…"))
    (some "processing")
  startStatusPolling st2

/-- `setStatusCompleted` (`sidepanel.js:346-352`): badge `completed`,
progress 100, stage label, debug update, then `stopStatusPolling()`. -/
def setStatusCompleted (st : PanelState) (msg : Option String) : PanelState :=
  let st1 := { st with statusBadge := "completed" }
  let st2 := setProgress st1 100
  let st3 := { st2 with stageLabel := jsOrStr msg "Completed" }
  let st4 := setDebug st3 (some 100) (some (jsOrStr msg "Completed"))
    (some "completed")
  stopStatusPolling st4

/-- A broadcast as received by the panel's `chrome.runtime.onMessage`
listener and routed to `handleWsMessage` (`sidepanel.js:408`): a task id
and an optional payload (the lifecycle broadcasts carry none). -/
structure PanelMsg where
  taskId : Option String
  payload : Option WsPayload
deriving DecidableEq, Repr

/-- `if (!state.currentTaskId && taskId) state.currentTaskId = taskId`
(`sidepanel.js:420`). -/
def adoptTaskId (st : PanelState) (m : PanelMsg) : PanelState :=
  if ¬ jsTruthyStr st.currentTaskId ∧ jsTruthyStr m.taskId
  then { st with currentTaskId := m.taskId } else st

/-- `handleWsMessage` (`sidepanel.js:408-515`): drops messages without a
payload, adopts the task id when none is set, then dispatches on
`payload.event` exactly as the source `switch` does (each branch composed
in source statement order). -/
def handleWsMessage (st : PanelState) (m : PanelMsg) : PanelState :=
  match m.payload with
  | none => st
  | some payload =>
    let st := adoptTaskId st m
    match payload.event with
    | some "connected" =>
      let st1 := renderActivity st "WebSocket connected"
      let st2 := setStatusProcessing st1 (some "Processing…")
      let st3 := setDebug st2 none (some "Connected") (some "connected")
      stopStatusPolling st3
    | some "segment_ready" =>
      match payload.segment with
      | some seg =>
        let st1 := { st with segments := st.segments ++ [seg] }
        let st2 := renderActivity st1 "Segment ready"
        let st3 := setStatusProcessing st2 (some "Segments updating…")
        setDebug st3 none (some "Segments updating…") (some "processing")
      | none => st
    | some "progress" =>
      let st1 := setStatusProcessing st (some (jsOrStr payload.current_stage "Processing…"))
      setDebug st1 (some (payload.progress.getD 0))
        (some (jsOrStr payload.current_stage "Processing…"))
        (some (jsOrStr payload.status "processing"))
    | some "completed" =>
      let st1 := setStatusCompleted st (some "Completed")
      let st2 := setDebug st1 (some 100) (some "Completed") (some "completed")
      renderActivity st2 "Processing completed"
    | some "error" =>
      let st1 := { st with statusBadge := "error"
                           stageLabel := jsOrStr payload.message "Error" }
      let st2 := setDebug st1 (some 0) (some (jsOrStr payload.message "Error"))
        (some "error")
      let st3 := renderActivity st2 "Processing error"
      stopStatusPolling st3
    | some "disconnected" =>
      let st1 := renderActivity st "WebSocket disconnected - using polling"
      startStatusPolling st1
    | _ => st

/-- The panel state right after bootstrap, polling inactive. -/
def panelInit : PanelState :=
  { statusBadge := ""
    stageLabel := ""
    progress := 0
    debugStatus := ""
    debugStage := ""
    statusPollActive := false
    currentTaskId := some "T1"
    segments := []
    activity := [] }

/-- The payload of a `progress` push event, as in the C4 counterexample. -/
def progressPayload : WsPayload :=
  { event := some "progress"
    segment := none
    progress := some 40
    current_stage := some "analysis"
    status := some "processing"
    message := none }

lemma startStatusPolling_active (st : PanelState) :
    (startStatusPolling st).statusPollActive = true := by
  unfold startStatusPolling
  cases h : st.statusPollActive <;> simp [h]

lemma stopStatusPolling_inactive (st : PanelState) :
    (stopStatusPolling st).statusPollActive = false := by
  unfold stopStatusPolling
  cases h : st.statusPollActive <;> simp [h]

lemma setDebug_poll (st : PanelState) (p : Option Int) (sg ss : Option String) :
    (setDebug st p sg ss).statusPollActive = st.statusPollActive := by
  cases p <;> cases hss : jsTruthyStr ss <;> simp [setDebug, setProgress, hss]

lemma setStatusProcessing_poll (st : PanelState) (msg : Option String) :
    (setStatusProcessing st msg).statusPollActive = true :=
  startStatusPolling_active _

lemma setStatusCompleted_poll (st : PanelState) (msg : Option String) :
    (setStatusCompleted st msg).statusPollActive = false :=
  stopStatusPolling_inactive _

end Vier.Panel

open Vier Vier.Panel in
/-- Counterexample to claim C4 as stated: handling a push `progress` event
leaves the panel's status-poll interval timer ACTIVE — `setStatusProcessing`
ends with `startStatusPolling()`, it does not stop the polling path — so
the push path and the polling path do drive status updates at the same
time, contradicting "whenever a push event is handled the status-poll
interval timer is not active". -/
theorem progress_event_starts_polling :
    (handleWsMessage panelInit
      { taskId := some "T1", payload := some progressPayload }).statusPollActive
      = true := rfl

open Vier Vier.Panel in
/-- Claim C4 as amended: `setStatusCompleted` does stop the polling path
first, but `setStatusProcessing` instead starts the status-polling fallback,
so after handling a push `progress` event the poll interval timer is active;
the poll timer is left inactive only by the `connected`, `completed` and
`error` push events (whose handlers stop polling). -/
theorem panel_poll_paths (st : PanelState) (msg : Option String) (m : PanelMsg)
    (p : Vier.Background.WsPayload) (hm : m.payload = some p) :
    (setStatusCompleted st msg).statusPollActive = false ∧
    (setStatusProcessing st msg).statusPollActive = true ∧
    (p.event = some "progress" → (handleWsMessage st m).statusPollActive = true) ∧
    (p.event = some "connected" → (handleWsMessage st m).statusPollActive = false) ∧
    (p.event = some "completed" → (handleWsMessage st m).statusPollActive = false) ∧
    (p.event = some "error" → (handleWsMessage st m).statusPollActive = false) := by
  refine ⟨setStatusCompleted_poll st msg, setStatusProcessing_poll st msg, ?_, ?_, ?_, ?_⟩
  · intro he
    have hred : handleWsMessage st m =
        setDebug
          (setStatusProcessing (adoptTaskId st m)
            (some (jsOrStr p.current_stage "Processing…")))
          (some (p.progress.getD 0))
          (some (jsOrStr p.current_stage "Processing…"))
          (some (jsOrStr p.status "processing")) := by
      simp only [handleWsMessage, hm, he]
    rw [hred]
    exact setDebug_poll _ _ _ _ |>.trans (setStatusProcessing_poll _ _)
  · intro he
    have hred : handleWsMessage st m =
        stopStatusPolling
          (setDebug
            (setStatusProcessing (renderActivity (adoptTaskId st m) "WebSocket connected")
              (some "Processing…"))
            none (some "Connected") (some "connected")) := by
      simp only [handleWsMessage, hm, he]
    rw [hred]
    exact stopStatusPolling_inactive _
  · intro he
    have hred : handleWsMessage st m =
        renderActivity
          (setDebug (setStatusCompleted (adoptTaskId st m) (some "Completed"))
            (some 100) (some "Completed") (some "completed"))
          "Processing completed" := by
      simp only [handleWsMessage, hm, he]
    rw [hred]
    show (setDebug (setStatusCompleted (adoptTaskId st m) (some "Completed"))
      (some 100) (some "Completed") (some "completed")).statusPollActive = false
    exact setDebug_poll _ _ _ _ |>.trans (setStatusCompleted_poll _ _)
  · intro he
    have hred : handleWsMessage st m =
        stopStatusPolling
          (renderActivity
            (setDebug
              { adoptTaskId st m with
                statusBadge := "error"
                stageLabel := jsOrStr p.message "Error" }
              (some 0) (some (jsOrStr p.message "Error")) (some "error"))
            "Processing error") := by
      simp only [handleWsMessage, hm, he]
    rw [hred]
    exact stopStatusPolling_inactive _

open Vier Vier.Panel in
/-- Witness for the amended C4 at the concrete initial panel state and the
concrete `progress` message. -/
theorem panel_poll_paths_witness :
    (setStatusCompleted panelInit none).statusPollActive = false ∧
    (setStatusProcessing panelInit none).statusPollActive = true ∧
    (progressPayload.event = some "progress" →
      (handleWsMessage panelInit
        { taskId := some "T1", payload := some progressPayload }).statusPollActive = true) ∧
    (progressPayload.event = some "connected" →
      (handleWsMessage panelInit
        { taskId := some "T1", payload := some progressPayload }).statusPollActive = false) ∧
    (progressPayload.event = some "completed" →
      (handleWsMessage panelInit
        { taskId := some "T1", payload := some progressPayload }).statusPollActive = false) ∧
    (progressPayload.event = some "error" →
      (handleWsMessage panelInit
        { taskId := some "T1", payload := some progressPayload }).statusPollActive = false) :=
  panel_poll_paths panelInit none
    { taskId := some "T1", payload := some progressPayload } progressPayload rfl

namespace Vier.Background

/-- `Map.prototype.has`. -/
def cacheHas (c : SegCache) (t : String) : Bool :=
  c.any (fun kv => kv.1 = t)

/-- The Coordinator state slice read by the `config:get` bus handler
(`background.js:530-542`). -/
structure CoordState where
  backendUrl : String
  language : String
  enabled : Bool
  user : Option String
  accessToken : Option String
  refreshToken : Option String
  currentTaskId : Option String
  currentVideoUrl : Option String
  segmentsByTask : SegCache
deriving DecidableEq, Repr

/-- The reply object built by the `config:get` handler.  The only
token-derived field is the boolean `accessToken`; no field carries a token
string. -/
structure ConfigGetReply where
  backendUrl : String
  language : String
  enabled : Bool
  user : Option String
  accessToken : Bool
  currentTaskId : Option String
  currentVideoUrl : Option String
  segments : List Segment
deriving DecidableEq, Repr

/-- The `config:get` bus handler (`background.js:530-542`):
`accessToken: state.accessToken ? true : false` (JS truthiness), and the
current task's cached segments when present. -/
def configGet (st : CoordState) : ConfigGetReply :=
  { backendUrl := st.backendUrl
    language := st.language
    enabled := st.enabled
    user := st.user
    accessToken := jsTruthyStr st.accessToken
    currentTaskId := st.currentTaskId
    currentVideoUrl := st.currentVideoUrl
    segments :=
      if jsTruthyStr st.currentTaskId ∧
          cacheHas st.segmentsByTask (st.currentTaskId.getD "") then
        cacheGet st.segmentsByTask (st.currentTaskId.getD "")
      else [] }

/-- A base Coordinator state for the C10 counterexample; its access token
is the EMPTY string — non-null, but JS-falsy. -/
def c10StateA : CoordState :=
  { backendUrl := "http://b"
    language := "en"
    enabled := true
    user := some "u"
    accessToken := some ""
    refreshToken := some "r"
    currentTaskId := some "T1"
    currentVideoUrl := some "http://v"
    segmentsByTask := [] }

/-- The same state with a different (non-empty) access-token string. -/
def c10StateB : CoordState :=
  { c10StateA with accessToken := some "tok" }

end Vier.Background

open Vier Vier.Background in
/-- Counterexample to claim C10 as stated: `c10StateA` and `c10StateB`
differ only in their access-token strings, both non-null, yet their
`config:get` replies differ — the handler derives the `accessToken` boolean
from JS truthiness (`state.accessToken ? true : false`), and the empty
string is non-null but falsy, so the replies report `false` and `true`
respectively. -/
theorem config_get_empty_token_differs :
    configGet c10StateA ≠ configGet c10StateB := by decide

open Vier Vier.Background in
/-- Claim C10 as amended: the `config:get` reply never contains a token
string — the only token-derived field is the boolean `jsTruthyStr
accessToken` — so two states that differ only in their token strings, both
JS-truthy (non-null AND non-empty; likewise both falsy), produce identical
replies: the reply is invariant under any change of the refresh token and
any change of the access token preserving its truthiness. -/
theorem config_get_no_token_leak (st : CoordState) (a1 a2 r1 r2 : Option String)
    (h : jsTruthyStr a1 = jsTruthyStr a2) :
    configGet { st with accessToken := a1, refreshToken := r1 } =
      configGet { st with accessToken := a2, refreshToken := r2 } := by
  unfold configGet
  rw [ConfigGetReply.mk.injEq]
  exact ⟨rfl, rfl, rfl, rfl, h, rfl, rfl, rfl⟩

open Vier Vier.Background in
/-- Witness for the amended C10: two distinct non-empty access tokens and
distinct refresh tokens yield identical replies. -/
theorem config_get_no_token_leak_witness :
    configGet { c10StateA with accessToken := some "x", refreshToken := some "p" } =
      configGet { c10StateA with accessToken := some "y", refreshToken := none } :=
  config_get_no_token_leak c10StateA (some "x") (some "y") (some "p") none (by decide)
